import Mathlib

/-
  Verification development for the OS-Assignment game servers.

  The repository contains two sibling server implementations:
  * `server.c` — "Collaborative Sudoku": a shared 9x9 grid, spinlock-protected
    shared state, a `turn_signal` counter, scoring +10 / -5 per placement,
    a round-robin scheduler thread and a log/ledger pipeline.
  * the "Race to 100" server (dice accumulation variant): pthread mutexes,
    snake-eyes reset rule, WINNING_SCORE = 100.

  Below, each C function that the claims touch is embedded as a Lean
  definition operating on explicit state records.  Randomness (dice draws,
  puzzle generation) is externalized as parameters, and file / pipe I/O is
  dropped; only the shared-memory state transitions are modelled.
-/

-- ============================================================================
-- Shared enumerations (PlayerState / GameState enums in common.h and server.c)
-- ============================================================================

/-- Player connection states, from the C `PlayerState` enum. -/
inductive PlayerState where
  | disconnected
  | waiting
  | active
  | finished
deriving DecidableEq, Repr, Fintype

/-- Game lifecycle phases, from the C `GameState` enum. -/
inductive GamePhase where
  | waitingForPlayers
  | inProgress
  | finished
deriving DecidableEq, Repr

/-- Response message kinds (subset of the C `MessageType` enum that the
    handler actually sends back on the paths we model). -/
inductive MsgType where
  | error
  | wait
  | placeResult
  | gameOver
  | playerJoined
  | gameStart
  | rollResult
deriving DecidableEq, Repr

/-- MIN_PLAYERS from the C headers. -/
def MIN_PLAYERS : Int := 3

/-- MAX_PLAYERS from the C headers. -/
def MAX_PLAYERS : Nat := 5

/-- WINNING_SCORE for the accumulation (dice) variant. -/
def WINNING_SCORE : Int := 100

/-- POINTS_CORRECT for the placement variant. -/
def POINTS_CORRECT : Int := 10

/-- POINTS_WRONG for the placement variant. -/
def POINTS_WRONG : Int := -5

-- ============================================================================
-- get_next_active_player (identical in both servers)
-- ============================================================================

/-- One step of the do-while scan inside `get_next_active_player`: check up to
    `n` slots starting at raw index `idx` (taken mod 5, as the C code wraps
    with `% MAX_PLAYERS`), returning the first ACTIVE slot, else -1. -/
def nextScan (ps : Fin 5 → PlayerState) : Nat → Nat → Int
  | 0, _ => -1
  | n + 1, idx =>
      if ps ⟨idx % 5, Nat.mod_lt idx (by norm_num)⟩ = PlayerState.active then
        ((idx % 5 : Nat) : Int)
      else
        nextScan ps n (idx + 1)

/-- Embedding of `get_next_active_player(current)`: start at
    `(current + 1) % MAX_PLAYERS` (C truncated `%`, hence `Int.tmod`) and scan
    all 5 slots once, wrapping; return the first ACTIVE slot or -1. -/
def get_next_active_player (ps : Fin 5 → PlayerState) (current : Int) : Int :=
  nextScan ps 5 ((current + 1).tmod 5).toNat

/-- Embedding of `count_active_players()`. -/
def count_active_players (ps : Fin 5 → PlayerState) : Nat :=
  ((List.finRange 5).filter (fun i => ps i = PlayerState.active)).length

/-- The list `[f c, f (f c), ..., f^n c]` of successive results of
    `get_next_active_player`, used to state the round-robin orbit property. -/
def orbitList (ps : Fin 5 → PlayerState) : Int → Nat → List Int
  | _, 0 => []
  | c, n + 1 =>
      let c2 := get_next_active_player ps c
      c2 :: orbitList ps c2 n

-- ============================================================================
-- Tuple view of the five player-state slots (used to make the round-robin
-- lemmas decidable by finite enumeration)
-- ============================================================================

/-- Build a slot-indexed state vector from five explicit values. -/
def mkPS (p0 p1 p2 p3 p4 : PlayerState) : Fin 5 → PlayerState :=
  fun i => match i with
  | ⟨0, _⟩ => p0
  | ⟨1, _⟩ => p1
  | ⟨2, _⟩ => p2
  | ⟨3, _⟩ => p3
  | ⟨4, _⟩ => p4

-- ============================================================================
-- Collaborative Sudoku server model (server.c)
-- ============================================================================

namespace Sudoku

/-- One grid cell, from the C `SudokuCell` struct. -/
structure SudokuCell where
  value : Int
  solution : Int
  is_fixed : Bool
  placed_by : Int
deriving DecidableEq, Repr

/-- Per-slot player record, from the C `Player` struct (the `id` and
    `handler_pid` fields carry no game logic and are omitted). -/
structure Player where
  name : String
  score : Int
  correct_placements : Int
  wrong_placements : Int
  state : PlayerState
deriving DecidableEq, Repr

/-- The shared-memory game state, from the C `SharedGameState` struct
    (locks themselves are not data; the grid is total over `Nat` indices,
    with only indices 0..8 ever accessed, mirroring the C array). -/
structure SharedGameState where
  game_state : GamePhase
  num_players : Int
  current_turn : Int
  winner_id : Int
  grid : Nat → Nat → SudokuCell
  cells_remaining : Int
  players : Fin 5 → Player
  turn_signal : Int

/-- Project the slot-state vector out of the shared state. -/
def playerStates (s : SharedGameState) : Fin 5 → PlayerState :=
  fun i => (s.players i).state

/-- Point update of the grid at row `r`, column `c`. -/
def updateGrid (g : Nat → Nat → SudokuCell) (r c : Nat) (cell : SudokuCell) :
    Nat → Nat → SudokuCell :=
  fun r2 c2 => if r2 = r ∧ c2 = c then cell else g r2 c2

/-- Embedding of `advance_turn()` in server.c: pick the next active player;
    if one exists, set `current_turn` and bump `turn_signal`. -/
def advance_turn (s : SharedGameState) : SharedGameState :=
  let next := get_next_active_player (playerStates s) s.current_turn
  if 0 ≤ next then
    { s with current_turn := next, turn_signal := s.turn_signal + 1 }
  else s

/-- A pending row for the score ledger: the argument tuple of one
    `update_player_stats(name, is_winner, correct, wrong)` call. -/
structure LedgerUpdate where
  name : String
  is_winner : Bool
  correct : Int
  wrong : Int
deriving DecidableEq, Repr

/-- The winner scan shared verbatim by the handler's game-over path and the
    scheduler's completion path: `max_score = -1000; winner = -1;` then an
    ascending scan keeping strictly greater scores of ACTIVE players.
    Returns `(winner, max_score)`. -/
def computeWinner (players : Fin 5 → Player) : Int × Int :=
  (List.finRange 5).foldl
    (fun acc i =>
      if (players i).state = PlayerState.active ∧ acc.2 < (players i).score then
        (((i : Nat) : Int), (players i).score)
      else acc)
    (-1, -1000)

/-- Embedding of the game-over finalization inside `handle_client`'s
    MSG_PLACE branch (server.c): compute the winner, set `winner_id` and
    `game_state = GAME_FINISHED`.  This path performs NO ledger updates,
    hence the empty list. -/
def handler_game_over (s : SharedGameState) : SharedGameState × List LedgerUpdate :=
  let w := (computeWinner s.players).1
  ({ s with winner_id := w, game_state := GamePhase.finished }, [])

/-- Embedding of the completion block inside `scheduler_thread_func`
    (server.c): set `game_state = GAME_FINISHED`, compute and store the
    winner, and, when a winner exists, issue one `update_player_stats` call
    per ACTIVE player (in ascending slot order). -/
def scheduler_completion (s : SharedGameState) : SharedGameState × List LedgerUpdate :=
  let w := (computeWinner s.players).1
  let s2 := { s with game_state := GamePhase.finished, winner_id := w }
  let ups :=
    if 0 ≤ w then
      ((List.finRange 5).filter (fun i => (s.players i).state = PlayerState.active)).map
        (fun i =>
          { name := (s.players i).name,
            is_winner := decide (((i : Nat) : Int) = w),
            correct := (s.players i).correct_placements,
            wrong := (s.players i).wrong_placements })
    else []
  (s2, ups)

/-- Embedding of the MSG_PLACE branch of `handle_client` (server.c):
    rejection checks in source order, then the correct/wrong resolution,
    then either the immediate game-over finalization (when no cells remain)
    or the synchronous `advance_turn()`. -/
def handle_place (s : SharedGameState) (pid : Fin 5) (row col value : Int) :
    MsgType × SharedGameState :=
  if s.game_state ≠ GamePhase.inProgress then (MsgType.error, s)
  else if s.current_turn ≠ ((pid : Nat) : Int) then (MsgType.wait, s)
  else if row < 0 ∨ 9 ≤ row ∨ col < 0 ∨ 9 ≤ col then (MsgType.error, s)
  else if value < 1 ∨ 9 < value then (MsgType.error, s)
  else
    let r := row.toNat
    let c := col.toNat
    let cell := s.grid r c
    if cell.is_fixed then (MsgType.error, s)
    else if cell.value ≠ 0 then (MsgType.error, s)
    else
      let p := s.players pid
      let s1 :=
        if value = cell.solution then
          { s with
              grid := updateGrid s.grid r c
                { cell with value := value, placed_by := ((pid : Nat) : Int) },
              cells_remaining := s.cells_remaining - 1,
              players := Function.update s.players pid
                { p with score := p.score + POINTS_CORRECT,
                         correct_placements := p.correct_placements + 1 } }
        else
          { s with
              players := Function.update s.players pid
                { p with score := p.score + POINTS_WRONG,
                         wrong_placements := p.wrong_placements + 1 } }
      if s1.cells_remaining ≤ 0 then
        (MsgType.gameOver, (handler_game_over s1).1)
      else
        (MsgType.placeResult, advance_turn s1)

/-- The unconditional part of the MSG_JOIN branch of `handle_client`
    (server.c): record the name, put the slot in WAITING with zeroed score
    and counters, and increment `num_players`. -/
def join_slot (s : SharedGameState) (slot : Fin 5) (nm : String) :
    SharedGameState :=
  { s with
      players := Function.update s.players slot
        { s.players slot with name := nm, state := PlayerState.waiting,
                              score := 0, correct_placements := 0,
                              wrong_placements := 0 },
      num_players := s.num_players + 1 }

/-- The promotion loop of the game-start branch: every WAITING slot becomes
    ACTIVE. -/
def promote_waiting (ps : Fin 5 → Player) : Fin 5 → Player :=
  fun i =>
    if (ps i).state = PlayerState.waiting then
      { ps i with state := PlayerState.active }
    else ps i

/-- The game-start branch of MSG_JOIN (server.c): install the generated
    puzzle, set the phase to IN_PROGRESS, promote all WAITING slots to
    ACTIVE, pick the first turn with `get_next_active_player(-1)` over the
    promoted states, and bump `turn_signal`. -/
def start_game (s : SharedGameState)
    (pzGrid : Nat → Nat → SudokuCell) (pzCount : Int) : SharedGameState :=
  { s with
      grid := pzGrid,
      cells_remaining := pzCount,
      game_state := GamePhase.inProgress,
      players := promote_waiting s.players,
      current_turn :=
        get_next_active_player
          (fun i => (promote_waiting s.players i).state) (-1),
      turn_signal := s.turn_signal + 1 }

/-- Embedding of the MSG_JOIN branch of `handle_client` (server.c).
    `pzGrid`/`pzCount` stand for the output of the randomized
    `generate_puzzle`, which only runs inside the game-start branch. -/
def handle_join (s : SharedGameState) (slot : Fin 5) (nm : String)
    (pzGrid : Nat → Nat → SudokuCell) (pzCount : Int) :
    MsgType × SharedGameState :=
  if MIN_PLAYERS ≤ (join_slot s slot nm).num_players ∧
      (join_slot s slot nm).game_state = GamePhase.waitingForPlayers then
    (MsgType.gameStart, start_game (join_slot s slot nm) pzGrid pzCount)
  else
    (MsgType.playerJoined, join_slot s slot nm)

/-- Embedding of the MSG_QUIT branch of `handle_client` and of the abrupt
    disconnect path (read returning <= 0): mark the slot DISCONNECTED and
    decrement `num_players`; `current_turn` is not touched. -/
def handle_quit (s : SharedGameState) (slot : Fin 5) : SharedGameState :=
  { s with
    players := Function.update s.players slot
      { s.players slot with state := PlayerState.disconnected },
    num_players := s.num_players - 1 }

/-- Embedding of the disconnect-skip block of `scheduler_thread_func`
    (server.c): when the current player is in range but no longer ACTIVE,
    either pass the turn to the next active player (bumping `turn_signal`)
    or, when none remains, finish the game. -/
def scheduler_skip (s : SharedGameState) : SharedGameState :=
  if h : 0 ≤ s.current_turn ∧ s.current_turn < 5 then
    if (s.players ⟨s.current_turn.toNat, by omega⟩).state ≠ PlayerState.active then
      if 0 ≤ get_next_active_player (playerStates s) s.current_turn then
        { s with
            current_turn := get_next_active_player (playerStates s) s.current_turn,
            turn_signal := s.turn_signal + 1 }
      else
        { s with game_state := GamePhase.finished }
    else s
  else s

/-- Embedding of one iteration of `scheduler_thread_func`'s loop body
    (server.c): under the in-progress guard, run the disconnect-skip block,
    then the completion block when no cells remain (the C code runs both
    blocks sequentially in the same critical section).  Returns the new
    state and the ledger updates issued. -/
def scheduler_step (s : SharedGameState) : SharedGameState × List LedgerUpdate :=
  if s.game_state = GamePhase.inProgress then
    if (scheduler_skip s).cells_remaining ≤ 0 then
      scheduler_completion (scheduler_skip s)
    else (scheduler_skip s, [])
  else (s, [])

/-- One externally triggered transition of the shared state, used to express
    reachability for the invariant claims. -/
inductive Op where
  | join (slot : Fin 5) (nm : String)
  | place (slot : Fin 5) (row col value : Int)
  | quit (slot : Fin 5)
  | sweep

/-- Apply one operation (puzzle data fixed for the run). -/
def applyOp (pzGrid : Nat → Nat → SudokuCell) (pzCount : Int)
    (s : SharedGameState) : Op → SharedGameState
  | Op.join slot nm => (handle_join s slot nm pzGrid pzCount).2
  | Op.place slot row col value => (handle_place s slot row col value).2
  | Op.quit slot => handle_quit s slot
  | Op.sweep => (scheduler_step s).1

/-- Run a list of operations from a state. -/
def exec (pzGrid : Nat → Nat → SudokuCell) (pzCount : Int)
    (s : SharedGameState) : List Op → SharedGameState
  | [] => s
  | op :: ops => exec pzGrid pzCount (applyOp pzGrid pzCount s op) ops

/-- The all-empty cell, as initialized by `setup_shared_memory`. -/
def initCell : SudokuCell :=
  { value := 0, solution := 0, is_fixed := false, placed_by := -1 }

/-- A freshly initialized player slot, as set by `setup_shared_memory`. -/
def initPlayer : Player :=
  { name := "", score := 0, correct_placements := 0, wrong_placements := 0,
    state := PlayerState.disconnected }

/-- The initial shared state written by `setup_shared_memory` (server.c):
    phase WAITING_FOR_PLAYERS, `current_turn = -1`, `winner_id = -1`,
    all slots DISCONNECTED. -/
def initState : SharedGameState :=
  { game_state := GamePhase.waitingForPlayers, num_players := 0,
    current_turn := -1, winner_id := -1, grid := fun _ _ => initCell,
    cells_remaining := 0, players := fun _ => initPlayer, turn_signal := 0 }

end Sudoku

-- ============================================================================
-- Race to 100 server model (accumulation / dice variant)
-- ============================================================================

namespace Race

/-- Per-slot player record of the dice server. -/
structure Player where
  name : String
  score : Int
  state : PlayerState
deriving DecidableEq, Repr

/-- Shared game state of the dice server. -/
structure State where
  game_state : GamePhase
  num_players : Int
  current_turn : Int
  winner_id : Int
  players : Fin 5 → Player

/-- Project the slot-state vector out of the shared state. -/
def playerStates (s : State) : Fin 5 → PlayerState :=
  fun i => (s.players i).state

/-- Embedding of the dice server's `advance_turn()`. -/
def advance_turn (s : State) : State :=
  let next := get_next_active_player (playerStates s) s.current_turn
  if 0 ≤ next then { s with current_turn := next } else s

/-- Embedding of the MSG_ROLL branch of the dice server's `handle_client`:
    rejection checks, snake-eyes reset or sum accumulation, then the
    WINNING_SCORE check (game over) or the synchronous turn advance.
    The two dice draws are externalized as `d1`, `d2`. -/
def handle_roll (s : State) (pid : Fin 5) (d1 d2 : Int) : MsgType × State :=
  if s.game_state ≠ GamePhase.inProgress then (MsgType.error, s)
  else if s.current_turn ≠ ((pid : Nat) : Int) then (MsgType.wait, s)
  else
    let p := s.players pid
    let p2 :=
      if d1 = 1 ∧ d2 = 1 then { p with score := 0 }
      else { p with score := p.score + (d1 + d2) }
    let s1 := { s with players := Function.update s.players pid p2 }
    if WINNING_SCORE ≤ p2.score then
      (MsgType.gameOver,
        { s1 with winner_id := ((pid : Nat) : Int),
                  game_state := GamePhase.finished })
    else
      (MsgType.rollResult, advance_turn s1)

end Race

-- ============================================================================
-- Lock-usage model (claim C4): per-code-path traces of lock operations,
-- extracted from the lock/unlock calls of server.c in source order
-- ============================================================================

/-- The three mutual-exclusion locks of server.c. -/
inductive LockId where
  | game
  | log
  | ledger
deriving DecidableEq, Repr

/-- A lock acquisition or release performed by a thread. -/
inductive LockEvent where
  | acq (l : LockId)
  | rel (l : LockId)
deriving DecidableEq, Repr

/-- The held-lock sets a thread passes through while executing a trace
    (initial set included). -/
def heldStates : List LockId → List LockEvent → List (List LockId)
  | h, [] => [h]
  | h, LockEvent.acq l :: es => h :: heldStates (l :: h) es
  | h, LockEvent.rel l :: es => h :: heldStates (h.erase l) es

/-- The largest number of locks simultaneously held along a trace. -/
def maxHeld (tr : List LockEvent) : Nat :=
  ((heldStates [] tr).map List.length).foldl max 0

/-- All (outer, inner) pairs such that the trace acquires `inner` while
    already holding `outer`. -/
def nestings : List LockId → List LockEvent → List (LockId × LockId)
  | _, [] => []
  | h, LockEvent.acq l :: es => h.map (fun o => (o, l)) ++ nestings (l :: h) es
  | h, LockEvent.rel l :: es => nestings (h.erase l) es

/-- Lock trace of `enqueue_log` (server.c): take and release the log-queue
    lock. -/
def enqueue_log_trace : List LockEvent :=
  [LockEvent.acq LockId.log, LockEvent.rel LockId.log]

/-- Lock trace of `save_scores` (server.c): take and release the ledger
    lock. -/
def save_scores_trace : List LockEvent :=
  [LockEvent.acq LockId.ledger, LockEvent.rel LockId.ledger]

/-- Lock trace of `update_player_stats` (server.c): ledger lock for the table
    update, then `save_scores()` after release. -/
def update_player_stats_trace : List LockEvent :=
  [LockEvent.acq LockId.ledger, LockEvent.rel LockId.ledger] ++ save_scores_trace

/-- Lock trace of one `logger_thread_func` iteration: log-queue lock only. -/
def logger_iter_trace : List LockEvent :=
  [LockEvent.acq LockId.log, LockEvent.rel LockId.log]

/-- Lock trace of `advance_turn` (server.c): game lock, with `enqueue_log`
    called while it is held. -/
def advance_turn_trace : List LockEvent :=
  [LockEvent.acq LockId.game] ++ enqueue_log_trace ++ [LockEvent.rel LockId.game]

/-- Lock trace of one `scheduler_thread_func` iteration on the completion
    path with a winner and one active player: the game lock is held across
    `enqueue_log` and `update_player_stats`. -/
def scheduler_iter_trace : List LockEvent :=
  [LockEvent.acq LockId.game] ++ enqueue_log_trace ++ update_player_stats_trace
    ++ [LockEvent.rel LockId.game]

/-- Lock trace of the MSG_JOIN branch on the game-start path: the game lock
    held across the join log, the `generate_puzzle` log and the game-start
    log. -/
def join_trace : List LockEvent :=
  [LockEvent.acq LockId.game] ++ enqueue_log_trace ++ enqueue_log_trace
    ++ enqueue_log_trace ++ [LockEvent.rel LockId.game]

/-- Lock trace of the MSG_PLACE branch on the continuing path: the game lock
    held across the placement log, then `advance_turn` after release. -/
def place_trace : List LockEvent :=
  [LockEvent.acq LockId.game] ++ enqueue_log_trace ++ [LockEvent.rel LockId.game]
    ++ advance_turn_trace

/-- The lock traces of the code paths of server.c that touch more than one
    lock domain (plus the single-lock paths, for completeness). -/
def programTraces : List (List LockEvent) :=
  [enqueue_log_trace, save_scores_trace, update_player_stats_trace,
   logger_iter_trace, advance_turn_trace, scheduler_iter_trace,
   join_trace, place_trace]

-- ============================================================================
-- Concrete sample states (used by witnesses and counterexamples)
-- ============================================================================

/-- Sample slot-state vector with slots 0, 2, 4 active. -/
def psB : Fin 5 → PlayerState :=
  mkPS PlayerState.active PlayerState.disconnected PlayerState.active
    PlayerState.waiting PlayerState.active

/-- Trivial puzzle data used for concrete runs (every cell open, solution 1). -/
def pzEx : Nat → Nat → Sudoku.SudokuCell :=
  fun _ _ => { value := 0, solution := 1, is_fixed := false, placed_by := -1 }

/-- Concrete run for claim C5: three joins (the third starts the game and
    makes slot 0 the current turn) followed by slot 0 quitting. -/
def c5trace : List Sudoku.Op :=
  [Sudoku.Op.join 0 "A", Sudoku.Op.join 1 "B", Sudoku.Op.join 2 "C",
   Sudoku.Op.quit 0]

/-- Build a sudoku player record with explicit counters. -/
def mkPlayer (nm : String) (sc cor wr : Int) (st : PlayerState) : Sudoku.Player :=
  { name := nm, score := sc, correct_placements := cor, wrong_placements := wr,
    state := st }

/-- Sample mid-game grid: cell (0,1) is fixed, cell (0,2) was already filled
    by a player, everything else is open with solution 1. -/
def gridC1 : Nat → Nat → Sudoku.SudokuCell :=
  fun r c =>
    if r = 0 ∧ c = 1 then
      { value := 9, solution := 9, is_fixed := true, placed_by := -1 }
    else if r = 0 ∧ c = 2 then
      { value := 7, solution := 7, is_fixed := false, placed_by := 1 }
    else pzEx r c

/-- Sample in-progress sudoku state: slots 0..2 active, slot 0 to move. -/
def sC1 : Sudoku.SharedGameState :=
  { game_state := GamePhase.inProgress, num_players := 3, current_turn := 0,
    winner_id := -1, grid := gridC1, cells_remaining := 3,
    players := fun i =>
      if (i : Nat) < 3 then mkPlayer "P" 20 2 0 PlayerState.active
      else mkPlayer "" 0 0 0 PlayerState.disconnected,
    turn_signal := 4 }

/-- Sample in-progress sudoku state with exactly one active player (slot 2),
    who is also the current turn. -/
def sC9 : Sudoku.SharedGameState :=
  { game_state := GamePhase.inProgress, num_players := 1, current_turn := 2,
    winner_id := -1, grid := pzEx, cells_remaining := 5,
    players := fun i =>
      if i = 2 then mkPlayer "solo" 15 1 1 PlayerState.active
      else mkPlayer "" 0 0 0 PlayerState.disconnected,
    turn_signal := 3 }

/-- Sample completed-puzzle state: three active players with distinct scores
    and counters, no cells remaining. -/
def sDone : Sudoku.SharedGameState :=
  { game_state := GamePhase.inProgress, num_players := 3, current_turn := 0,
    winner_id := -1, grid := pzEx, cells_remaining := 0,
    players := fun i =>
      if i = 0 then mkPlayer "Alice" 40 4 0 PlayerState.active
      else if i = 1 then mkPlayer "Bob" 10 1 0 PlayerState.active
      else if i = 2 then mkPlayer "Cara" (-5) 0 1 PlayerState.active
      else mkPlayer "" 0 0 0 PlayerState.disconnected,
    turn_signal := 9 }

/-- Sample completed-puzzle state in which the only active player has score
    exactly -1000 (reachable after 200 wrong placements). -/
def sLow : Sudoku.SharedGameState :=
  { game_state := GamePhase.inProgress, num_players := 1, current_turn := 0,
    winner_id := -1, grid := pzEx, cells_remaining := 0,
    players := fun i =>
      if i = 0 then mkPlayer "low" (-1000) 0 200 PlayerState.active
      else mkPlayer "" 0 0 0 PlayerState.disconnected,
    turn_signal := 7 }

/-- Sample in-progress dice-server state: slot 1 active at 95 points, to
    move. -/
def rC2 : Race.State :=
  { game_state := GamePhase.inProgress, num_players := 3, current_turn := 1,
    winner_id := -1,
    players := fun i =>
      if i = 1 then { name := "dice", score := 95, state := PlayerState.active }
      else if (i : Nat) < 3 then
        { name := "other", score := 30, state := PlayerState.active }
      else { name := "", score := 0, state := PlayerState.disconnected } }

/-- The sudoku state after two joins from the initial state (one short of
    the start threshold). -/
def s2J : Sudoku.SharedGameState :=
  Sudoku.exec pzEx 30 Sudoku.initState [Sudoku.Op.join 0 "A", Sudoku.Op.join 1 "B"]

-- ============================================================================
-- Helper lemmas about get_next_active_player (finite enumeration)
-- ============================================================================

/-- Every slot-state vector is the tuple of its five components. -/
theorem mkPS_eta (ps : Fin 5 → PlayerState) :
    mkPS (ps 0) (ps 1) (ps 2) (ps 3) (ps 4) = ps := by
  funext i
  match i with
  | ⟨0, _⟩ => rfl
  | ⟨1, _⟩ => rfl
  | ⟨2, _⟩ => rfl
  | ⟨3, _⟩ => rfl
  | ⟨4, _⟩ => rfl

set_option maxRecDepth 40000 in
/-- Enumerated form: the scan yields -1 exactly when no slot is active. -/
theorem next_none_tuple (p0 p1 p2 p3 p4 : PlayerState) (k : Fin 6) :
    get_next_active_player (mkPS p0 p1 p2 p3 p4) ((k : Int) - 1) = -1 ↔
      ∀ j, mkPS p0 p1 p2 p3 p4 j ≠ PlayerState.active := by
  revert p0 p1 p2 p3 p4 k
  decide

set_option maxRecDepth 40000 in
/-- Enumerated form: the scan yields -1 or the index of an active slot. -/
theorem next_spec_tuple (p0 p1 p2 p3 p4 : PlayerState) (k : Fin 6) :
    get_next_active_player (mkPS p0 p1 p2 p3 p4) ((k : Int) - 1) = -1 ∨
      ∃ j : Fin 5,
        get_next_active_player (mkPS p0 p1 p2 p3 p4) ((k : Int) - 1) =
          ((j : Nat) : Int) ∧
        mkPS p0 p1 p2 p3 p4 j = PlayerState.active := by
  revert p0 p1 p2 p3 p4 k
  decide

set_option maxRecDepth 40000 in
/-- Enumerated form of the round-robin orbit property: starting from an
    active slot, iterating the scan for (number of active slots) steps hits
    every active slot exactly once, stays inside 0..4, and ends back at the
    start. -/
theorem orbit_tuple (p0 p1 p2 p3 p4 : PlayerState) (a : Fin 5) :
    mkPS p0 p1 p2 p3 p4 a = PlayerState.active →
      (∀ j : Fin 5,
        (orbitList (mkPS p0 p1 p2 p3 p4) ((a : Nat) : Int)
            (count_active_players (mkPS p0 p1 p2 p3 p4))).count ((j : Nat) : Int) =
          if mkPS p0 p1 p2 p3 p4 j = PlayerState.active then 1 else 0)
      ∧ (∀ x ∈ orbitList (mkPS p0 p1 p2 p3 p4) ((a : Nat) : Int)
            (count_active_players (mkPS p0 p1 p2 p3 p4)), 0 ≤ x ∧ x < 5)
      ∧ (orbitList (mkPS p0 p1 p2 p3 p4) ((a : Nat) : Int)
            (count_active_players (mkPS p0 p1 p2 p3 p4))).getLast? =
          some ((a : Nat) : Int) := by
  revert p0 p1 p2 p3 p4 a
  decide

/-- General form of `next_none_tuple` for any start index in -1..4. -/
theorem get_next_eq_neg_one_iff (ps : Fin 5 → PlayerState) (c : Int)
    (h1 : -1 ≤ c) (h2 : c < 5) :
    get_next_active_player ps c = -1 ↔ ∀ j, ps j ≠ PlayerState.active := by
  have hk : (c + 1).toNat < 6 := by omega
  have hv : (((⟨(c + 1).toNat, hk⟩ : Fin 6) : Nat) : Int) - 1 = c := by
    simp only [Fin.val_mk]
    omega
  have h := next_none_tuple (ps 0) (ps 1) (ps 2) (ps 3) (ps 4) ⟨(c + 1).toNat, hk⟩
  rw [mkPS_eta, hv] at h
  exact h

/-- General form of `next_spec_tuple` for any start index in -1..4. -/
theorem get_next_spec (ps : Fin 5 → PlayerState) (c : Int)
    (h1 : -1 ≤ c) (h2 : c < 5) :
    get_next_active_player ps c = -1 ∨
      ∃ j : Fin 5,
        get_next_active_player ps c = ((j : Nat) : Int) ∧
        ps j = PlayerState.active := by
  have hk : (c + 1).toNat < 6 := by omega
  have hv : (((⟨(c + 1).toNat, hk⟩ : Fin 6) : Nat) : Int) - 1 = c := by
    simp only [Fin.val_mk]
    omega
  have h := next_spec_tuple (ps 0) (ps 1) (ps 2) (ps 3) (ps 4) ⟨(c + 1).toNat, hk⟩
  rw [mkPS_eta, hv] at h
  exact h

/-- If some slot is active, the scan lands on an active slot. -/
theorem get_next_finds_active (ps : Fin 5 → PlayerState) (c : Int)
    (h1 : -1 ≤ c) (h2 : c < 5) (hex : ∃ i, ps i = PlayerState.active) :
    ∃ j : Fin 5,
      get_next_active_player ps c = ((j : Nat) : Int) ∧
      ps j = PlayerState.active := by
  rcases get_next_spec ps c h1 h2 with hneg | hfound
  · obtain ⟨i, hi⟩ := hex
    exact absurd hi ((get_next_eq_neg_one_iff ps c h1 h2).mp hneg i)
  · exact hfound

/-- If exactly one slot is active, the scan returns that slot from any start
    index in -1..4. -/
theorem get_next_single_active (ps : Fin 5 → PlayerState) (m : Fin 5)
    (hm : ps m = PlayerState.active)
    (ho : ∀ j : Fin 5, j ≠ m → ps j ≠ PlayerState.active)
    (c : Int) (h1 : -1 ≤ c) (h2 : c < 5) :
    get_next_active_player ps c = ((m : Nat) : Int) := by
  obtain ⟨j, hj, hact⟩ := get_next_finds_active ps c h1 h2 ⟨m, hm⟩
  have hjm : j = m := by
    by_contra hne
    exact ho j hne hact
  rw [hjm] at hj
  exact hj

-- ============================================================================
-- Claim C7 — round-robin cycle property of get_next_active_player
-- ============================================================================

/-- C7: for every player-state configuration and every starting index in
    -1..4, `get_next_active_player` returns -1 exactly when no slot is
    ACTIVE; and starting from any ACTIVE slot, iterating it for (number of
    ACTIVE slots) steps visits every ACTIVE slot exactly once, never yields
    a non-ACTIVE slot or an out-of-range value, and ends back at the
    starting slot — i.e. the scan wraps through all ACTIVE slots exactly
    once before repeating, skipping every DISCONNECTED / WAITING / FINISHED
    slot. -/
theorem c7_round_robin (ps : Fin 5 → PlayerState) :
    (∀ c : Int, -1 ≤ c → c < 5 →
      (get_next_active_player ps c = -1 ↔ ∀ j, ps j ≠ PlayerState.active)) ∧
    (∀ a : Fin 5, ps a = PlayerState.active →
      (∀ j : Fin 5,
        (orbitList ps ((a : Nat) : Int) (count_active_players ps)).count
            ((j : Nat) : Int) =
          if ps j = PlayerState.active then 1 else 0)
      ∧ (∀ x ∈ orbitList ps ((a : Nat) : Int) (count_active_players ps),
          0 ≤ x ∧ x < 5)
      ∧ (orbitList ps ((a : Nat) : Int) (count_active_players ps)).getLast? =
          some ((a : Nat) : Int)) := by
  constructor
  · intro c hc1 hc2
    exact get_next_eq_neg_one_iff ps c hc1 hc2
  · intro a ha
    have h := orbit_tuple (ps 0) (ps 1) (ps 2) (ps 3) (ps 4) a
    rw [mkPS_eta] at h
    exact h ha

/-- C7 witness: the round-robin theorem instantiated at the concrete vector
    `psB` (slots 0, 2, 4 active), start slot 0. -/
theorem c7_round_robin_witness :
    (get_next_active_player psB 0 = -1 ↔ ∀ j, psB j ≠ PlayerState.active) ∧
    (orbitList psB 0 (count_active_players psB)).getLast? = some 0 := by
  have h := c7_round_robin psB
  exact ⟨h.1 0 (by norm_num) (by norm_num), (h.2 0 (by decide)).2.2⟩

-- ============================================================================
-- Claim C9 — single remaining active player keeps the turn
-- ============================================================================

/-- C9: if exactly one slot is ACTIVE, `get_next_active_player` returns that
    slot from every start index in -1..4 (the scan wraps over all
    MAX_PLAYERS slots, including the caller's own), so `advance_turn` after
    a non-winning move by the only remaining active player leaves
    `current_turn` equal to that same mover while still incrementing
    `turn_signal`. -/
theorem c9_single_active (s : Sudoku.SharedGameState) (m : Fin 5)
    (hm : (s.players m).state = PlayerState.active)
    (ho : ∀ j : Fin 5, j ≠ m → (s.players j).state ≠ PlayerState.active)
    (h1 : -1 ≤ s.current_turn) (h2 : s.current_turn < 5) :
    (∀ c : Int, -1 ≤ c → c < 5 →
      get_next_active_player (Sudoku.playerStates s) c = ((m : Nat) : Int)) ∧
    (Sudoku.advance_turn s).current_turn = ((m : Nat) : Int) ∧
    (Sudoku.advance_turn s).turn_signal = s.turn_signal + 1 := by
  have hall : ∀ c : Int, -1 ≤ c → c < 5 →
      get_next_active_player (Sudoku.playerStates s) c = ((m : Nat) : Int) := by
    intro c hc1 hc2
    exact get_next_single_active (Sudoku.playerStates s) m hm ho c hc1 hc2
  have hnext := hall s.current_turn h1 h2
  have hpos : (0 : Int) ≤ ((m : Nat) : Int) := Int.natCast_nonneg _
  refine ⟨hall, ?_, ?_⟩
  · simp only [Sudoku.advance_turn, hnext, if_pos hpos]
  · simp only [Sudoku.advance_turn, hnext, if_pos hpos]

/-- C9 witness: the single-active theorem instantiated at the concrete state
    `sC9` (only slot 2 active, current turn 2). -/
theorem c9_single_active_witness :
    get_next_active_player (Sudoku.playerStates sC9) 4 = 2 ∧
    (Sudoku.advance_turn sC9).current_turn = 2 ∧
    (Sudoku.advance_turn sC9).turn_signal = 4 := by
  have h := c9_single_active sC9 2 (by decide)
    (by decide) (by norm_num [sC9]) (by norm_num [sC9])
  exact ⟨h.1 4 (by norm_num) (by norm_num), h.2.1, h.2.2⟩

-- ============================================================================
-- Claim C1 — placement resolution rules
-- ============================================================================

/-- C1: for a Place request by the player whose slot equals `current_turn`
    while the game is in progress, with row, col in 0..8 and value in 1..9:
    a fixed or already-filled target cell is rejected with an Error response
    and no state change; a value equal to the cell's hidden solution fills
    the cell, attributes it to the mover, decrements `cells_remaining` by
    exactly 1 and adds exactly 10 to the mover's score; a differing value
    leaves the cell empty, leaves `cells_remaining` unchanged and subtracts
    exactly 5 from the mover's score. -/
theorem c1_place_rules (s : Sudoku.SharedGameState) (pid : Fin 5)
    (row col value : Int)
    (hphase : s.game_state = GamePhase.inProgress)
    (hturn : s.current_turn = ((pid : Nat) : Int))
    (hr0 : 0 ≤ row) (hr9 : row < 9) (hc0 : 0 ≤ col) (hc9 : col < 9)
    (hv1 : 1 ≤ value) (hv9 : value ≤ 9) :
    (((s.grid row.toNat col.toNat).is_fixed = true ∨
        (s.grid row.toNat col.toNat).value ≠ 0) →
      Sudoku.handle_place s pid row col value = (MsgType.error, s)) ∧
    ((s.grid row.toNat col.toNat).is_fixed = false →
      (s.grid row.toNat col.toNat).value = 0 →
      value = (s.grid row.toNat col.toNat).solution →
      (((Sudoku.handle_place s pid row col value).2.grid row.toNat col.toNat).value
          = value
      ∧ ((Sudoku.handle_place s pid row col value).2.grid row.toNat col.toNat).placed_by
          = ((pid : Nat) : Int)
      ∧ (Sudoku.handle_place s pid row col value).2.cells_remaining
          = s.cells_remaining - 1
      ∧ ((Sudoku.handle_place s pid row col value).2.players pid).score
          = (s.players pid).score + 10)) ∧
    ((s.grid row.toNat col.toNat).is_fixed = false →
      (s.grid row.toNat col.toNat).value = 0 →
      value ≠ (s.grid row.toNat col.toNat).solution →
      (((Sudoku.handle_place s pid row col value).2.grid row.toNat col.toNat).value = 0
      ∧ (Sudoku.handle_place s pid row col value).2.cells_remaining
          = s.cells_remaining
      ∧ ((Sudoku.handle_place s pid row col value).2.players pid).score
          = (s.players pid).score - 5)) := by
  have hnb : ¬(row < 0 ∨ 9 ≤ row ∨ col < 0 ∨ 9 ≤ col) := by omega
  have hnv : ¬(value < 1 ∨ 9 < value) := by omega
  refine ⟨?_, ?_, ?_⟩
  · rintro (hfix | hfill)
    · simp [Sudoku.handle_place, hphase, hturn, hnb, hnv, hfix]
    · simp [Sudoku.handle_place, hphase, hturn, hnb, hnv, hfill]
  · intro hfix hfill hsol
    simp [Sudoku.handle_place, hphase, hturn, hnb, hnv, hfix, hfill, ← hsol,
      Sudoku.updateGrid, Sudoku.advance_turn, Sudoku.handler_game_over]
    split_ifs <;> simp [Sudoku.updateGrid, POINTS_CORRECT, POINTS_WRONG]
  · intro hfix hfill hsol
    simp [Sudoku.handle_place, hphase, hturn, hnb, hnv, hfix, hfill, hsol,
      Sudoku.updateGrid, Sudoku.advance_turn, Sudoku.handler_game_over]
    split_ifs <;>
      simp [Sudoku.updateGrid, POINTS_CORRECT, POINTS_WRONG, sub_eq_add_neg, hfill]

/-- C1 witness: the placement theorem instantiated at the concrete state
    `sC1`, slot 0 correctly placing 1 at the open cell (0,0). -/
theorem c1_place_rules_witness :
    ((Sudoku.handle_place sC1 0 0 0 1).2.grid 0 0).value = 1 ∧
    ((Sudoku.handle_place sC1 0 0 0 1).2.grid 0 0).placed_by = 0 ∧
    (Sudoku.handle_place sC1 0 0 0 1).2.cells_remaining = 2 ∧
    ((Sudoku.handle_place sC1 0 0 0 1).2.players 0).score = 30 := by
  have h := c1_place_rules sC1 0 0 0 1 (by decide) (by decide)
    (by norm_num) (by norm_num) (by norm_num) (by norm_num) (by norm_num)
    (by norm_num)
  have h2 := h.2.1 (by decide) (by decide) (by decide)
  exact ⟨h2.1, h2.2.1, h2.2.2.1.trans (by decide), h2.2.2.2.trans (by decide)⟩

-- ============================================================================
-- Claim C2 — dice roll resolution rules (Race to 100)
-- ============================================================================

/-- C2: for a Roll by the player whose slot equals `current_turn` while the
    game is in progress: both dice equal to 1 reset the mover's score to
    exactly 0 regardless of its prior value; any other pair (a,b) adds
    exactly a+b; and whenever the resulting score reaches 100, the phase
    becomes Finished with the mover as winner. -/
theorem c2_roll_rules (s : Race.State) (pid : Fin 5) (d1 d2 : Int)
    (hphase : s.game_state = GamePhase.inProgress)
    (hturn : s.current_turn = ((pid : Nat) : Int)) :
    ((d1 = 1 ∧ d2 = 1) →
      ((Race.handle_roll s pid d1 d2).2.players pid).score = 0) ∧
    (¬(d1 = 1 ∧ d2 = 1) →
      ((Race.handle_roll s pid d1 d2).2.players pid).score
        = (s.players pid).score + (d1 + d2)) ∧
    (100 ≤ ((Race.handle_roll s pid d1 d2).2.players pid).score →
      (Race.handle_roll s pid d1 d2).2.game_state = GamePhase.finished ∧
      (Race.handle_roll s pid d1 d2).2.winner_id = ((pid : Nat) : Int)) := by
  refine ⟨fun hsn => ?_, fun hns => ?_, fun hwin => ?_⟩
  · simp [Race.handle_roll, hphase, hturn, hsn, WINNING_SCORE, Race.advance_turn]
    split_ifs <;> simp
  · simp [Race.handle_roll, hphase, hturn, hns, WINNING_SCORE, Race.advance_turn]
    split_ifs <;> simp
  · by_cases hsn : d1 = 1 ∧ d2 = 1
    · exfalso
      have h0 : ((Race.handle_roll s pid d1 d2).2.players pid).score = 0 := by
        simp [Race.handle_roll, hphase, hturn, hsn, WINNING_SCORE, Race.advance_turn]
        split_ifs <;> simp
      rw [h0] at hwin
      norm_num at hwin
    · have hs : ((Race.handle_roll s pid d1 d2).2.players pid).score
          = (s.players pid).score + (d1 + d2) := by
        simp [Race.handle_roll, hphase, hturn, hsn, WINNING_SCORE, Race.advance_turn]
        split_ifs <;> simp
      rw [hs] at hwin
      constructor <;>
        simp [Race.handle_roll, hphase, hturn, hsn, WINNING_SCORE, hwin]

/-- C2 witness: the roll theorem instantiated at the concrete state `rC2`
    (slot 1 at 95 points) rolling 3 and 4, reaching 102 and winning. -/
theorem c2_roll_rules_witness :
    ((Race.handle_roll rC2 1 3 4).2.players 1).score = 102 ∧
    (Race.handle_roll rC2 1 3 4).2.game_state = GamePhase.finished ∧
    (Race.handle_roll rC2 1 3 4).2.winner_id = 1 := by
  have h := c2_roll_rules rC2 1 3 4 (by decide) (by decide)
  have hsc : ((Race.handle_roll rC2 1 3 4).2.players 1).score = 102 :=
    (h.2.1 (by norm_num)).trans (by decide)
  have hw := h.2.2 (by rw [hsc]; norm_num)
  exact ⟨hsc, hw.1, hw.2⟩

-- ============================================================================
-- Claim C3 — handler vs. scheduler game-over finalization
-- ============================================================================

/-- C3 counterexample: at the concrete completed-puzzle state `sDone`
    (three active players, Alice leading), the handler's immediate game-over
    path issues NO score-ledger updates while the scheduler's completion
    path issues one `update_player_stats` call per active player — so the
    two finalizations do not trigger the same ledger updates. -/
theorem c3_counterexample :
    (Sudoku.handler_game_over sDone).2 = [] ∧
    (Sudoku.scheduler_completion sDone).2 ≠ [] ∧
    (Sudoku.scheduler_completion sDone).2 =
      [{ name := "Alice", is_winner := true, correct := 4, wrong := 0 },
       { name := "Bob", is_winner := false, correct := 1, wrong := 0 },
       { name := "Cara", is_winner := false, correct := 0, wrong := 1 }] := by
  refine ⟨rfl, ?_, ?_⟩ <;> decide

/-- C3 (amended): the handler's immediate game-over finalization and the
    scheduler's completion finalization compute identical shared-state
    results — same Finished phase and same winner (maximum score among
    active players, ties to the lowest slot) — but the handler path issues
    no score-ledger updates; only the scheduler path does. -/
theorem c3_finalize_agreement (s : Sudoku.SharedGameState) :
    (Sudoku.handler_game_over s).1 = (Sudoku.scheduler_completion s).1 ∧
    (Sudoku.handler_game_over s).2 = [] := ⟨rfl, rfl⟩

-- ============================================================================
-- Claim C10 — the -1000 winner-scan sentinel
-- ============================================================================

/-- The winner fold keeps its initial accumulator when no list element beats
    it. -/
theorem winner_foldl_stays (players : Fin 5 → Sudoku.Player) (l : List (Fin 5))
    (h : ∀ i ∈ l, ¬((players i).state = PlayerState.active ∧
      (-1000 : Int) < (players i).score)) :
    l.foldl
      (fun acc i =>
        if (players i).state = PlayerState.active ∧ acc.2 < (players i).score then
          (((i : Nat) : Int), (players i).score)
        else acc)
      ((-1 : Int), (-1000 : Int)) = (-1, -1000) := by
  induction l with
  | nil => rfl
  | cons a t ih =>
      simp only [List.foldl_cons]
      rw [if_neg (h a (by simp))]
      exact ih (fun i hi => h i (by simp [hi]))

/-- If every active player's score is at most -1000, the winner scan keeps
    its -1000 sentinel and reports no winner. -/
theorem computeWinner_all_low (players : Fin 5 → Sudoku.Player)
    (hlow : ∀ i : Fin 5, (players i).state = PlayerState.active →
      (players i).score ≤ -1000) :
    Sudoku.computeWinner players = (-1, -1000) := by
  unfold Sudoku.computeWinner
  exact winner_foldl_stays players (List.finRange 5)
    (fun i _ hc => absurd (hlow i hc.1) (by omega))

/-- C10: the game-over winner scan starts its best score at -1000 and keeps
    only strictly greater scores, so when the puzzle completes while every
    active player's score is at most -1000, `winner_id` becomes -1 even
    though active players exist, and the scheduler's completion path then
    performs no score-ledger update for any player. -/
theorem c10_sentinel_no_winner (s : Sudoku.SharedGameState)
    (hlow : ∀ i : Fin 5, (s.players i).state = PlayerState.active →
      (s.players i).score ≤ -1000)
    (_hex : ∃ i : Fin 5, (s.players i).state = PlayerState.active) :
    (Sudoku.scheduler_completion s).1.winner_id = -1 ∧
    (Sudoku.scheduler_completion s).2 = [] ∧
    (Sudoku.handler_game_over s).1.winner_id = -1 := by
  have hcw := computeWinner_all_low s.players hlow
  refine ⟨?_, ?_, ?_⟩
  · simp [Sudoku.scheduler_completion, hcw]
  · simp [Sudoku.scheduler_completion, hcw]
  · simp [Sudoku.handler_game_over, hcw]

/-- C10 witness: the sentinel theorem instantiated at the concrete state
    `sLow` (only slot 0 active, score exactly -1000, no cells remaining). -/
theorem c10_sentinel_no_winner_witness :
    (Sudoku.scheduler_completion sLow).1.winner_id = -1 ∧
    (Sudoku.scheduler_completion sLow).2 = [] ∧
    (Sudoku.handler_game_over sLow).1.winner_id = -1 :=
  c10_sentinel_no_winner sLow (by decide) ⟨0, by decide⟩

-- ============================================================================
-- Claim C4 — lock nesting discipline
-- ============================================================================

/-- C4 counterexample: the scheduler's completion-path iteration is a code
    path of server.c on which a thread holds two of the three locks at
    once — the game lock together with the log-queue lock, and the game
    lock together with the ledger lock. -/
theorem c4_counterexample :
    scheduler_iter_trace ∈ programTraces ∧
    maxHeld scheduler_iter_trace = 2 ∧
    (LockId.game, LockId.log) ∈ nestings [] scheduler_iter_trace ∧
    (LockId.game, LockId.ledger) ∈ nestings [] scheduler_iter_trace := by
  decide

/-- C4 (amended): threads of server.c may hold up to two of the three locks
    simultaneously — the log-queue lock or the ledger lock is acquired while
    the game lock is held — but on every code path the game lock is the only
    outer lock and is never acquired while another lock is held, so the
    lock order is acyclic (no lock-order deadlock), though the claimed
    "never more than one lock" discipline does not hold. -/
theorem c4_lock_nesting (tr : List LockEvent) (h : tr ∈ programTraces) :
    maxHeld tr ≤ 2 ∧
    (∀ p ∈ nestings [] tr, p.1 = LockId.game ∧ p.2 ≠ LockId.game) := by
  fin_cases h <;> decide

/-- C4 witness: the nesting theorem instantiated at the join-path trace. -/
theorem c4_lock_nesting_witness :
    maxHeld join_trace ≤ 2 ∧
    (∀ p ∈ nestings [] join_trace, p.1 = LockId.game ∧ p.2 ≠ LockId.game) :=
  c4_lock_nesting join_trace (by decide)

-- ============================================================================
-- Claim C6 — out-of-turn / out-of-phase move rejection
-- ============================================================================

/-- C6: a Move request (Place on the sudoku server, Roll on the dice server)
    submitted while the phase is not InProgress is answered with an Error
    ("not in progress") response, and one submitted by a slot different from
    `current_turn` is answered with a Wait ("not your turn") response; in
    both cases the shared game state is returned unchanged. -/
theorem c6_out_of_turn_rejection (s : Sudoku.SharedGameState) (pid : Fin 5)
    (row col value : Int) (rs : Race.State) (d1 d2 : Int) :
    (s.game_state ≠ GamePhase.inProgress →
      Sudoku.handle_place s pid row col value = (MsgType.error, s)) ∧
    (s.game_state = GamePhase.inProgress →
      s.current_turn ≠ ((pid : Nat) : Int) →
      Sudoku.handle_place s pid row col value = (MsgType.wait, s)) ∧
    (rs.game_state ≠ GamePhase.inProgress →
      Race.handle_roll rs pid d1 d2 = (MsgType.error, rs)) ∧
    (rs.game_state = GamePhase.inProgress →
      rs.current_turn ≠ ((pid : Nat) : Int) →
      Race.handle_roll rs pid d1 d2 = (MsgType.wait, rs)) := by
  refine ⟨fun h => ?_, fun h1 h2 => ?_, fun h => ?_, fun h1 h2 => ?_⟩
  · simp [Sudoku.handle_place, h]
  · simp [Sudoku.handle_place, h1, h2]
  · simp [Race.handle_roll, h]
  · simp [Race.handle_roll, h1, h2]

/-- C6 witness: the rejection theorem instantiated at concrete states — the
    initial sudoku state (still waiting for players), the in-progress state
    `sC1` with the wrong mover, a finished dice state, and the in-progress
    dice state `rC2` with the wrong mover. -/
theorem c6_out_of_turn_rejection_witness :
    Sudoku.handle_place Sudoku.initState 0 0 0 1
      = (MsgType.error, Sudoku.initState) ∧
    Sudoku.handle_place sC1 1 0 0 1 = (MsgType.wait, sC1) ∧
    Race.handle_roll { rC2 with game_state := GamePhase.finished } 1 2 3
      = (MsgType.error, { rC2 with game_state := GamePhase.finished }) ∧
    Race.handle_roll rC2 0 2 3 = (MsgType.wait, rC2) := by
  refine ⟨?_, ?_, ?_, ?_⟩
  · exact (c6_out_of_turn_rejection Sudoku.initState 0 0 0 1 rC2 2 3).1
      (by decide)
  · exact (c6_out_of_turn_rejection sC1 1 0 0 1 rC2 2 3).2.1
      (by decide) (by decide)
  · exact (c6_out_of_turn_rejection sC1 1 0 0 1
      { rC2 with game_state := GamePhase.finished } 2 3).2.2.1 (by decide)
  · exact (c6_out_of_turn_rejection sC1 0 0 0 1 rC2 2 3).2.2.2
      (by decide) (by decide)

-- ============================================================================
-- Claim C8 — joining a game that is already running or finished
-- ============================================================================

/-- C8: a Join received while the phase is InProgress or Finished still
    records the name, sets the joining slot to WAITING, resets its score and
    counters and increments `num_players`, while the phase, `current_turn`,
    the grid, `cells_remaining`, `turn_signal`, `winner_id` and every other
    player's record are unchanged; the joining slot is not promoted to
    ACTIVE by this request. -/
theorem c8_late_join_frame (s : Sudoku.SharedGameState) (slot : Fin 5)
    (nm : String) (g : Nat → Nat → Sudoku.SudokuCell) (k : Int)
    (h : s.game_state = GamePhase.inProgress ∨
      s.game_state = GamePhase.finished) :
    (Sudoku.handle_join s slot nm g k).1 = MsgType.playerJoined ∧
    (Sudoku.handle_join s slot nm g k).2.players slot =
      { s.players slot with
          name := nm
          state := PlayerState.waiting
          score := 0
          correct_placements := 0
          wrong_placements := 0 } ∧
    (Sudoku.handle_join s slot nm g k).2.num_players = s.num_players + 1 ∧
    (Sudoku.handle_join s slot nm g k).2.game_state = s.game_state ∧
    (Sudoku.handle_join s slot nm g k).2.current_turn = s.current_turn ∧
    (Sudoku.handle_join s slot nm g k).2.grid = s.grid ∧
    (Sudoku.handle_join s slot nm g k).2.cells_remaining = s.cells_remaining ∧
    (Sudoku.handle_join s slot nm g k).2.turn_signal = s.turn_signal ∧
    (Sudoku.handle_join s slot nm g k).2.winner_id = s.winner_id ∧
    (∀ j : Fin 5, j ≠ slot →
      (Sudoku.handle_join s slot nm g k).2.players j = s.players j) ∧
    ((Sudoku.handle_join s slot nm g k).2.players slot).state ≠
      PlayerState.active := by
  have hg : ¬(MIN_PLAYERS ≤ s.num_players + 1 ∧
      s.game_state = GamePhase.waitingForPlayers) := by
    rintro ⟨_, h2⟩
    rcases h with h | h <;> rw [h] at h2 <;> cases h2
  refine ⟨?_, ?_, ?_, ?_, ?_, ?_, ?_, ?_, ?_, ?_, ?_⟩ <;>
    simp [Sudoku.handle_join, Sudoku.join_slot, hg, Function.update_noteq]
  · intro j hj
    simp [Function.update_noteq hj]

/-- C8 witness: the late-join theorem instantiated at the in-progress state
    `sC1` with slot 3 joining as "Late". -/
theorem c8_late_join_frame_witness :
    (Sudoku.handle_join sC1 3 "Late" pzEx 30).1 = MsgType.playerJoined ∧
    (Sudoku.handle_join sC1 3 "Late" pzEx 30).2.game_state
      = GamePhase.inProgress ∧
    (Sudoku.handle_join sC1 3 "Late" pzEx 30).2.current_turn = 0 ∧
    ((Sudoku.handle_join sC1 3 "Late" pzEx 30).2.players 3).state
      = PlayerState.waiting := by
  have h := c8_late_join_frame sC1 3 "Late" pzEx 30 (Or.inl (by decide))
  refine ⟨h.1, h.2.2.2.1.trans (by decide), h.2.2.2.2.1.trans (by decide), ?_⟩
  rw [h.2.1]

-- ============================================================================
-- Claim C5 — current_turn / Active invariant
-- ============================================================================

/-- If the scheduler's skip block leaves the phase at InProgress and the
    current turn in range, the current turn indexes an ACTIVE player. -/
theorem skip_keeps_active (s : Sudoku.SharedGameState)
    (hph : (Sudoku.scheduler_skip s).game_state = GamePhase.inProgress)
    (hge : 0 ≤ (Sudoku.scheduler_skip s).current_turn)
    (hlt : (Sudoku.scheduler_skip s).current_turn < 5) :
    ∃ j : Fin 5,
      (Sudoku.scheduler_skip s).current_turn = ((j : Nat) : Int) ∧
      ((Sudoku.scheduler_skip s).players j).state = PlayerState.active := by
  unfold Sudoku.scheduler_skip at hph hge hlt ⊢
  split_ifs at hph hge hlt ⊢ with h1 h2 h3
  · rcases get_next_spec (Sudoku.playerStates s) s.current_turn
        (by omega) (by omega) with hneg | ⟨j, hj, hact⟩
    · rw [hneg] at h3
      norm_num at h3
    · exact ⟨j, hj, hact⟩
  · refine ⟨⟨s.current_turn.toNat, by omega⟩, ?_, not_not.mp h2⟩
    show s.current_turn = ((s.current_turn.toNat : Nat) : Int)
    omega
  · exact absurd ⟨hge, hlt⟩ h1

/-- C5 counterexample: the state reached by three joins (which start the
    game with `current_turn = 0`) followed by slot 0 quitting is a reachable
    state in which the game is still InProgress and `current_turn` is set
    (0) yet indexes a DISCONNECTED player — the quit path never touches
    `current_turn`, so the claimed invariant does not hold immediately after
    a disconnect or quit. -/
theorem c5_counterexample :
    (Sudoku.exec pzEx 30 Sudoku.initState c5trace).game_state
      = GamePhase.inProgress ∧
    (Sudoku.exec pzEx 30 Sudoku.initState c5trace).current_turn = 0 ∧
    ((Sudoku.exec pzEx 30 Sudoku.initState c5trace).players 0).state
      = PlayerState.disconnected :=
  ⟨rfl, rfl, rfl⟩

/-- C5 (amended): `current_turn` stays at its prior value (hence -1) while
    joins keep the connected count below MIN_PLAYERS; the Join that starts
    the game sets it to an ACTIVE player's index; `advance_turn` keeps it on
    an ACTIVE player whenever any player is ACTIVE; and after a scheduler
    iteration that leaves the game InProgress with the turn in range, the
    current turn indexes an ACTIVE player.  However — unlike what the claim
    states — a quit or disconnect of the current player leaves `current_turn`
    pointing at a DISCONNECTED player until the next scheduler sweep. -/
theorem c5_turn_invariant :
    (∀ (s : Sudoku.SharedGameState) (slot : Fin 5) (nm : String)
        (g : Nat → Nat → Sudoku.SudokuCell) (k : Int),
      s.game_state = GamePhase.waitingForPlayers →
      s.num_players + 1 < MIN_PLAYERS →
      (Sudoku.handle_join s slot nm g k).2.current_turn = s.current_turn) ∧
    (∀ (s : Sudoku.SharedGameState) (slot : Fin 5) (nm : String)
        (g : Nat → Nat → Sudoku.SudokuCell) (k : Int),
      s.game_state = GamePhase.waitingForPlayers →
      MIN_PLAYERS ≤ s.num_players + 1 →
      ∃ j : Fin 5,
        (Sudoku.handle_join s slot nm g k).2.current_turn = ((j : Nat) : Int) ∧
        ((Sudoku.handle_join s slot nm g k).2.players j).state
          = PlayerState.active) ∧
    (∀ s : Sudoku.SharedGameState,
      -1 ≤ s.current_turn → s.current_turn < 5 →
      (∃ i : Fin 5, (s.players i).state = PlayerState.active) →
      ∃ j : Fin 5,
        (Sudoku.advance_turn s).current_turn = ((j : Nat) : Int) ∧
        ((Sudoku.advance_turn s).players j).state = PlayerState.active) ∧
    (∀ s : Sudoku.SharedGameState,
      (Sudoku.scheduler_step s).1.game_state = GamePhase.inProgress →
      0 ≤ (Sudoku.scheduler_step s).1.current_turn →
      (Sudoku.scheduler_step s).1.current_turn < 5 →
      ∃ j : Fin 5,
        (Sudoku.scheduler_step s).1.current_turn = ((j : Nat) : Int) ∧
        ((Sudoku.scheduler_step s).1.players j).state
          = PlayerState.active) := by
  refine ⟨?_, ?_, ?_, ?_⟩
  · intro s slot nm g k hphase hcount
    have hc3 : s.num_players + 1 < 3 := hcount
    unfold Sudoku.handle_join
    split_ifs with hc
    · have hx : (3 : Int) ≤ s.num_players + 1 := hc.1
      omega
    · rfl
  · intro s slot nm g k hphase hcount
    unfold Sudoku.handle_join
    split_ifs with hc
    · show ∃ j : Fin 5,
        get_next_active_player
          (fun i =>
            (Sudoku.promote_waiting (Sudoku.join_slot s slot nm).players i).state)
          (-1) = ((j : Nat) : Int) ∧
        (Sudoku.promote_waiting (Sudoku.join_slot s slot nm).players j).state
          = PlayerState.active
      refine get_next_finds_active
        (fun i =>
          (Sudoku.promote_waiting (Sudoku.join_slot s slot nm).players i).state)
        (-1) (by norm_num) (by norm_num) ⟨slot, ?_⟩
      simp [Sudoku.promote_waiting, Sudoku.join_slot, Function.update_same]
    · exact absurd ⟨hcount, hphase⟩ hc
  · intro s h1 h2 hex
    obtain ⟨j, hj, hact⟩ :=
      get_next_finds_active (Sudoku.playerStates s) s.current_turn h1 h2 hex
    have hone : Sudoku.advance_turn s =
        { s with current_turn := ((j : Nat) : Int),
                 turn_signal := s.turn_signal + 1 } := by
      simp only [Sudoku.advance_turn]
      rw [hj, if_pos (Int.natCast_nonneg (j : Nat))]
    rw [hone]
    exact ⟨j, rfl, hact⟩
  · intro s hph hge hlt
    unfold Sudoku.scheduler_step at hph hge hlt ⊢
    split_ifs at hph hge hlt ⊢ with h1 h2
    · simp [Sudoku.scheduler_completion] at hph
    · exact skip_keeps_active s hph hge hlt
    · exact absurd hph h1

/-- C5 witness: the amended invariant instantiated at concrete inputs — a
    first join into the fresh server, the game-starting third join from
    `s2J`, an `advance_turn` and a scheduler iteration from `sC9`. -/
theorem c5_turn_invariant_witness :
    (Sudoku.handle_join Sudoku.initState 0 "A" pzEx 30).2.current_turn = -1 ∧
    (∃ j : Fin 5,
      (Sudoku.handle_join s2J 2 "C" pzEx 30).2.current_turn
        = ((j : Nat) : Int) ∧
      ((Sudoku.handle_join s2J 2 "C" pzEx 30).2.players j).state
        = PlayerState.active) ∧
    (∃ j : Fin 5,
      (Sudoku.advance_turn sC9).current_turn = ((j : Nat) : Int) ∧
      ((Sudoku.advance_turn sC9).players j).state = PlayerState.active) ∧
    (∃ j : Fin 5,
      (Sudoku.scheduler_step sC9).1.current_turn = ((j : Nat) : Int) ∧
      ((Sudoku.scheduler_step sC9).1.players j).state
        = PlayerState.active) := by
  have h := c5_turn_invariant
  exact ⟨(h.1 Sudoku.initState 0 "A" pzEx 30 (by decide) (by decide)).trans
      (by decide),
    h.2.1 s2J 2 "C" pzEx 30 (by decide) (by decide),
    h.2.2.1 sC9 (by decide) (by decide) ⟨2, by decide⟩,
    h.2.2.2 sC9 (by decide) (by decide) (by decide)⟩
